import Mathlib

/-!
Shallow embedding of `src/app.py` (apimi): a paginated auction fetcher with a
global retry budget, a timestamped in-memory cache with a 5-minute staleness
rule, name-based item classification, and a lore parser extracting
attribute/level pairs from decorated text.
-/

/-- One marketplace auction entry (`class AuctionItem` in `app.py`).
The display name is `Option String`: the upstream value may be absent (None)
or empty, both falsy in the Python truthiness guard of `filter_items`. -/
structure AuctionItem where
  uuid : String
  item_name : Option String
  item_lore : String
  category : String
  tier : String
  claimed : Bool
  bin_status : Bool
  starting_bid : Int
deriving DecidableEq

/-- Outcome of one page request in `get_auction_items`: either a
`RequestException` (network error / non-2xx / timeout) or a JSON body with a
`totalPages` count and the page's `auctions` array (already converted to
`AuctionItem`s, since the per-entry conversion is field-for-field). -/
inductive Response
  | fail
  | ok (totalPages : Nat) (auctions : List AuctionItem)
deriving DecidableEq

/-- The `while more_pages` loop of `AuctionService.get_auction_items`.
Each iteration consumes the outcome of one HTTP request in order.  On success
the page's entries are appended, the page counter advances, and the loop
continues while `page + 1 < totalPages`.  On failure the retry budget is
decremented; the same page is retried while the budget stays positive,
otherwise the loop breaks and returns what was accumulated.  An exhausted
response list returns the accumulator (the real loop always gets a response,
so theorems supply enough responses). -/
def fetch_loop : List Response → Nat → Nat → List AuctionItem → List AuctionItem
  | [], _, _, acc => acc
  | Response.fail :: rest, page, retry, acc =>
      if retry - 1 > 0 then fetch_loop rest page (retry - 1) acc else acc
  | Response.ok tp auctions :: rest, page, retry, acc =>
      if page + 1 < tp then fetch_loop rest (page + 1) retry (acc ++ auctions)
      else acc ++ auctions

/-- `AuctionService.get_auction_items`: start at page 0 with retry budget 5
and an empty accumulator. -/
def get_auction_items (responses : List Response) : List AuctionItem :=
  fetch_loop responses 0 5 []

/-- A well-behaved upstream: every request for page `i` succeeds and reports
the same `totalPages`, with `pages i` as the page's entries.  The loop
requests pages `0, 1, 2, …` in order, so the response stream is indexed by
page number. -/
def consistent_responses (tp : Nat) (pages : Nat → List AuctionItem) : List Response :=
  (List.range tp).map (fun i => Response.ok tp (pages i))

lemma fetch_loop_ok (tp : Nat) (auctions : List AuctionItem) (rest : List Response)
    (page retry : Nat) (acc : List AuctionItem) :
    fetch_loop (Response.ok tp auctions :: rest) page retry acc
      = if page + 1 < tp then fetch_loop rest (page + 1) retry (acc ++ auctions)
        else acc ++ auctions := rfl

lemma fetch_loop_failed (rest : List Response) (page retry : Nat) (acc : List AuctionItem) :
    fetch_loop (Response.fail :: rest) page retry acc
      = if retry - 1 > 0 then fetch_loop rest page (retry - 1) acc else acc := rfl

lemma fetch_loop_consistent (tp : Nat) (pages : Nat → List AuctionItem) :
    ∀ (n p retry : Nat) (acc : List AuctionItem), p + (n + 1) = tp →
      fetch_loop ((List.range' p (n + 1)).map (fun i => Response.ok tp (pages i))) p retry acc
        = acc ++ ((List.range' p (n + 1)).map pages).flatten := by
  intro n
  induction n with
  | zero =>
    intro p retry acc hp
    have h1 : ¬ p + 1 < tp := by omega
    rw [List.range'_succ]
    simp [fetch_loop_ok, h1]
  | succ n ih =>
    intro p retry acc hp
    have h1 : p + 1 < tp := by omega
    rw [List.range'_succ, List.map_cons, fetch_loop_ok, if_pos h1,
      ih (p + 1) retry (acc ++ pages p) (by omega)]
    simp [List.range'_succ, List.append_assoc]

lemma fetch_loop_all_fail (junk : List Response) (p : Nat) (acc : List AuctionItem) :
    fetch_loop (List.replicate 5 Response.fail ++ junk) p 5 acc = acc := by
  simp [List.replicate, fetch_loop_failed]

lemma fetch_loop_exhaust (tp : Nat) (pages : Nat → List AuctionItem) (junk : List Response) :
    ∀ (n p : Nat) (acc : List AuctionItem), p + n < tp →
      fetch_loop ((List.range' p n).map (fun i => Response.ok tp (pages i))
          ++ List.replicate 5 Response.fail ++ junk) p 5 acc
        = acc ++ ((List.range' p n).map pages).flatten := by
  intro n
  induction n with
  | zero =>
    intro p acc h
    simpa using fetch_loop_all_fail junk p acc
  | succ n ih =>
    intro p acc h
    have h1 : p + 1 < tp := by omega
    rw [List.range'_succ, List.map_cons, List.cons_append, List.cons_append,
      fetch_loop_ok, if_pos h1, ih (p + 1) (acc ++ pages p) (by omega)]
    simp [List.append_assoc]

example :
    get_auction_items (consistent_responses 1 (fun _ => [])) = [] := by decide

/-- Fixed attribute vocabulary (`ArmorFilterService.valid_armor_attributes`),
in source order (the order of the regex alternation). -/
def valid_armor_attributes : List String :=
  ["Arachno Resistance", "Blazing Resistance", "Breeze", "Dominance",
   "Ender Resistance", "Experience", "Fortitude", "Life Regeneration",
   "Lifeline", "Magic Find", "Mana Pool", "Mana Regeneration",
   "Vitality", "Speed", "Undead Resistance", "Veteran"]

/-- `ArmorFilterService.valid_armor_names`. -/
def valid_armor_names : List String := ["Crimson", "Aurora", "Terror", "Hollow", "Fervor"]

/-- `ArmorFilterService.valid_armor_pieces`. -/
def valid_armor_pieces : List String := ["Helmet", "Chestplate", "Leggings", "Boots"]

/-- `ArmorFilterService.valid_equipments`. -/
def valid_equipments : List String :=
  ["Molten Belt", "Molten Bracelet", "Molten Cloak", "Molten Necklace"]

/-- Does `pat` occur as a contiguous substring of `cs`?  Mirrors Python's
`pat in s` and `re.search` over a literal pattern. -/
def has_substr (pat : List Char) : List Char → Bool
  | [] => pat.isEmpty
  | c :: rest => pat.isPrefixOf (c :: rest) || has_substr pat rest

/-- Python `str.lower()` on the ASCII vocabulary used here. -/
def lower_chars (cs : List Char) : List Char := cs.map Char.toLower

/-- `ArmorFilterService.matches_armor_name`: case-insensitive substring test
against the 5 armor-line names. -/
def matches_armor_name (item_name : String) : Bool :=
  valid_armor_names.any (fun n => has_substr (lower_chars n.data) (lower_chars item_name.data))

/-- `ArmorFilterService.matches_armor_piece`: case-insensitive substring test
against the 4 piece types. -/
def matches_armor_piece (item_name : String) : Bool :=
  valid_armor_pieces.any (fun p => has_substr (lower_chars p.data) (lower_chars item_name.data))

/-- `ArmorFilterService.matches_equipment_name`. -/
def matches_equipment_name (item_name : String) : Bool :=
  valid_equipments.any (fun e => has_substr (lower_chars e.data) (lower_chars item_name.data))

/-- The literal substring checked by the shard branch; this check is
case-sensitive in the source (no `.lower()`). -/
def shard_lit : List Char := "Attribute Shard".data

/-- Does the class `[0-9a-fk-or]` of the decoration-stripping regex accept
this character? -/
def decoration_char (c : Char) : Bool :=
  (decide ('0' ≤ c) && decide (c ≤ '9')) || (decide ('a' ≤ c) && decide (c ≤ 'f'))
    || (decide ('k' ≤ c) && decide (c ≤ 'o')) || c = 'r'

/-- `re.sub(r'§[0-9a-fk-or]', '', lore)`: left-to-right scan removing every
two-character decoration code (section sign plus class character), anywhere
in the text. -/
def strip_decorations : List Char → List Char
  | [] => []
  | [c] => [c]
  | c :: d :: rest =>
      if c = '§' && decoration_char d then strip_decorations rest
      else c :: strip_decorations (d :: rest)

/-- Python `str.split('\n')`: the empty string yields one empty line. -/
def split_lines : List Char → List (List Char)
  | [] => [[]]
  | c :: rest =>
      if c = '\n' then [] :: split_lines rest
      else
        match split_lines rest with
        | [] => [[c]]
        | l :: ls => (c :: l) :: ls

/-- The roman-numeral character class `[IVXLCDM]` of the attribute regex. -/
def roman_char (c : Char) : Bool :=
  c = 'I' || c = 'V' || c = 'X' || c = 'L' || c = 'C' || c = 'D' || c = 'M'

/-- Try one alternative of the attribute regex at the current position:
the attribute name, a space, then a greedy non-empty run of roman-numeral
characters (groups 1 and 2 of the match). -/
def try_attribute (name : String) (cs : List Char) : Option (String × String) :=
  if (name.data ++ [' ']).isPrefixOf cs then
    let lvl := (cs.drop (name.data.length + 1)).takeWhile roman_char
    if lvl.isEmpty then none else some (name, String.mk lvl)
  else none

/-- All alternatives of the regex, in source order, at one position
(Python alternation picks the first alternative that matches). -/
def match_attribute_at (cs : List Char) : Option (String × String) :=
  valid_armor_attributes.findSome? (fun n => try_attribute n cs)

/-- `attribute_regex.search(line)`: the leftmost position where some
alternative matches wins; only that first match is reported. -/
def search_attribute : List Char → Option (String × String)
  | [] => none
  | c :: rest =>
      match match_attribute_at (c :: rest) with
      | some r => some r
      | none => search_attribute rest

/-- One extracted name/level pair (`{'name': …, 'level': …}` dict). -/
structure AttributeMatch where
  name : String
  level : String
deriving DecidableEq

/-- The per-line body of the extraction loop: at most one regular attribute
match (the regex `search`), then, independently, one shard entry when the
line contains the literal "Attribute Shard". -/
def line_matches (line : List Char) : List AttributeMatch :=
  (match search_attribute line with
   | some r => [⟨r.1, r.2⟩]
   | none => []) ++
  (if has_substr shard_lit line then [⟨"Attribute Shard", "N/A"⟩] else [])

/-- `ArmorFilterService.extract_attributes_from_lore`: strip decoration
codes, split into lines, and append each line's matches in line order. -/
def extract_attributes_from_lore (item_lore : String) : List AttributeMatch :=
  ((split_lines (strip_decorations item_lore.data)).map line_matches).flatten

example :
    extract_attributes_from_lore "§aLife Regeneration §6V\n§7Attribute Shard"
      = [⟨"Life Regeneration", "V"⟩, ⟨"Attribute Shard", "N/A"⟩] := by decide

/-- Mutable state of `ArmorFilterService`: the cached item list and the
timestamp of the last fetch.  Timestamps are integers (seconds); wall-clock
readings are passed in explicitly where the source calls `datetime.now()`. -/
structure CacheState where
  last_fetched : Int
  cached_items : List AuctionItem
deriving DecidableEq

/-- Models `datetime.min`, the initial `last_fetched` of `__init__`: the
origin of the timestamp scale, below every actual clock reading. -/
def datetime_min : Int := 0

/-- `ArmorFilterService.__init__`: `last_fetched = datetime.min`,
`cached_items = []`. -/
def initial_cache : CacheState := ⟨datetime_min, []⟩

/-- The staleness test of `filter_items`:
`datetime.now() - self.last_fetched > timedelta(minutes=5)` (300 seconds,
strict). -/
def is_stale (s : CacheState) (now : Int) : Bool := 300 < now - s.last_fetched

/-- `ArmorFilterService.refresh_data`: replace the cached items with the
fetch result (whatever it is) and stamp the current time. -/
def refresh_data (_s : CacheState) (responses : List Response) (now : Int) : CacheState :=
  { last_fetched := now, cached_items := get_auction_items responses }

/-- The armor filter condition of `filter_items`: truthy name (present and
non-empty), armor-line match, piece match, and `bin_status == True`. -/
def armor_cond (item : AuctionItem) : Bool :=
  match item.item_name with
  | none => false
  | some s =>
      decide (s ≠ "") && matches_armor_name s && matches_armor_piece s && item.bin_status

/-- The equipment filter condition of `filter_items`. -/
def equipment_cond (item : AuctionItem) : Bool :=
  match item.item_name with
  | none => false
  | some s => decide (s ≠ "") && matches_equipment_name s && item.bin_status

/-- The shard filter condition of `filter_items`: the literal substring
"Attribute Shard" in the name (case-sensitive). -/
def shard_cond (item : AuctionItem) : Bool :=
  match item.item_name with
  | none => false
  | some s => decide (s ≠ "") && has_substr shard_lit s.data && item.bin_status

/-- The armor list comprehension of `filter_items`. -/
def armors_of (items : List AuctionItem) : List AuctionItem := items.filter armor_cond

/-- The equipment list comprehension of `filter_items`. -/
def equipments_of (items : List AuctionItem) : List AuctionItem := items.filter equipment_cond

/-- The shard list comprehension of `filter_items`. -/
def shards_of (items : List AuctionItem) : List AuctionItem := items.filter shard_cond

/-- The pure tail of `ArmorFilterService.filter_items` (lines 96-110):
the three comprehensions concatenated as `armors + equipments + shards`. -/
def filter_pure (items : List AuctionItem) : List AuctionItem :=
  armors_of items ++ equipments_of items ++ shards_of items

/-- `ArmorFilterService.filter_items`: refresh when stale, then filter the
(possibly refreshed) cache.  Returns the new state and the filtered list. -/
def filter_items (s : CacheState) (responses : List Response) (now : Int) :
    CacheState × List AuctionItem :=
  let s' := if is_stale s now then refresh_data s responses now else s
  (s', filter_pure s'.cached_items)

/-- Sample listing used by concrete instances. -/
def crimson_true : AuctionItem :=
  ⟨"uuid-ct", some "Crimson Helmet", "", "armor", "LEGENDARY", false, true, 10⟩

/-- Same display name, `bin_status` false. -/
def crimson_false : AuctionItem :=
  ⟨"uuid-cf", some "Crimson Helmet", "", "armor", "LEGENDARY", false, false, 10⟩

/-- Contrived name satisfying the armor and shard predicates at once. -/
def contrived_item : AuctionItem :=
  ⟨"uuid-x", some "Crimson Attribute Shard Helmet", "", "armor", "RARE", false, true, 5⟩

/-- Equipment-branch sample. -/
def molten_item : AuctionItem :=
  ⟨"uuid-m", some "Molten Cloak", "", "accessories", "RARE", false, true, 7⟩

lemma armor_cond_name_bin (x : AuctionItem) (h : armor_cond x = true) :
    (∃ s, x.item_name = some s ∧ s ≠ "") ∧ x.bin_status = true := by
  unfold armor_cond at h
  cases hname : x.item_name with
  | none => rw [hname] at h; simp at h
  | some s =>
    rw [hname] at h
    simp at h
    exact ⟨⟨s, rfl, by tauto⟩, by tauto⟩

lemma equipment_cond_name_bin (x : AuctionItem) (h : equipment_cond x = true) :
    (∃ s, x.item_name = some s ∧ s ≠ "") ∧ x.bin_status = true := by
  unfold equipment_cond at h
  cases hname : x.item_name with
  | none => rw [hname] at h; simp at h
  | some s =>
    rw [hname] at h
    simp at h
    exact ⟨⟨s, rfl, by tauto⟩, by tauto⟩

lemma shard_cond_name_bin (x : AuctionItem) (h : shard_cond x = true) :
    (∃ s, x.item_name = some s ∧ s ≠ "") ∧ x.bin_status = true := by
  unfold shard_cond at h
  cases hname : x.item_name with
  | none => rw [hname] at h; simp at h
  | some s =>
    rw [hname] at h
    simp at h
    exact ⟨⟨s, rfl, by tauto⟩, by tauto⟩

/-- Claim C1 counterexample: a fetch cycle that fails entirely does NOT
leave the previously held snapshot unchanged — `refresh_data` replaces a
cache holding one item with the empty result of the totally failed fetch. -/
theorem c1_counterexample :
    ¬ ((refresh_data ⟨50, [crimson_true]⟩ (List.replicate 5 Response.fail) 1000).cached_items
        = (⟨50, [crimson_true]⟩ : CacheState).cached_items) := by decide

/-- Claim C1 (amended): a fetch cycle whose every page request fails until
the retry budget is exhausted makes `refresh_data` replace the prior
snapshot with an empty one, stamped with the refresh time; the prior
snapshot is not preserved. -/
theorem c1_total_failure_replaces_snapshot (s : CacheState) (junk : List Response) (now : Int) :
    refresh_data s (List.replicate 5 Response.fail ++ junk) now = ⟨now, []⟩ := by
  unfold refresh_data get_auction_items
  rw [fetch_loop_all_fail]

/-- Claim C2: extracting from the decorated two-line lore
"§aLife Regeneration §6V\n§7Attribute Shard" yields exactly the pair
`Life Regeneration V` followed by the shard entry — decoration codes are
stripped anywhere in the text before matching. -/
theorem c2_decorated_lore_extraction :
    extract_attributes_from_lore "§aLife Regeneration §6V\n§7Attribute Shard"
      = [⟨"Life Regeneration", "V"⟩, ⟨"Attribute Shard", "N/A"⟩] := by decide

/-- Claim C3: at most one regular attribute match is taken per line (the
first occurrence), so "Mana Pool VII Mana Pool IX" yields only `Mana Pool
VII`; a line additionally and independently may contribute one shard entry;
results are appended in line order and duplicates across lines are kept. -/
theorem c3_first_match_per_line :
    extract_attributes_from_lore "Mana Pool VII Mana Pool IX" = [⟨"Mana Pool", "VII"⟩]
    ∧ (∀ line : List Char, (line_matches line).length ≤ 2)
    ∧ (∀ lore : String, extract_attributes_from_lore lore
        = ((split_lines (strip_decorations lore.data)).map line_matches).flatten)
    ∧ extract_attributes_from_lore "Mana Pool V\nMana Pool V"
        = [⟨"Mana Pool", "V"⟩, ⟨"Mana Pool", "V"⟩]
    ∧ extract_attributes_from_lore "Life Regeneration II Attribute Shard"
        = [⟨"Life Regeneration", "II"⟩, ⟨"Attribute Shard", "N/A"⟩] := by
  refine ⟨by decide, ?_, fun _ => rfl, by decide, by decide⟩
  intro line
  unfold line_matches
  cases search_attribute line <;> cases h : has_substr shard_lit line <;> simp [h]

/-- Claim C4: when the retry budget is exhausted by transient failures
(after `n` successful pages, every request fails five times), `fetchAll`
returns the entries accumulated before exhaustion — possibly empty — rather
than an error; later responses are never consumed. -/
theorem c4_exhaustion_partial_success (tp n : Nat) (pages : Nat → List AuctionItem)
    (junk : List Response) (h : n < tp) :
    get_auction_items ((List.range n).map (fun i => Response.ok tp (pages i))
        ++ List.replicate 5 Response.fail ++ junk)
      = ((List.range n).map pages).flatten := by
  unfold get_auction_items
  rw [List.range_eq_range']
  simpa using fetch_loop_exhaust tp pages junk n 0 [] (by omega)

/-- Concrete instance of `c4_exhaustion_partial_success`: one successful
page out of three, then five failures. -/
theorem c4_witness :
    get_auction_items ((List.range 1).map (fun i => Response.ok 3 ((fun _ => [molten_item]) i))
        ++ List.replicate 5 Response.fail ++ [])
      = ((List.range 1).map (fun _ => [molten_item])).flatten :=
  c4_exhaustion_partial_success 3 1 (fun _ => [molten_item]) [] (by decide)

/-- Claim C5: against a consistent upstream with `tp` pages, `fetchAll`
returns as many listings as the sum of the per-page entry counts over pages
`0 … tp - 1`, fetching pages in increasing order from 0. -/
theorem c5_complete_fetch_count (tp : Nat) (pages : Nat → List AuctionItem) (h : 1 ≤ tp) :
    (get_auction_items (consistent_responses tp pages)).length
      = ((List.range tp).map (fun i => (pages i).length)).sum := by
  obtain ⟨n, rfl⟩ : ∃ n, n + 1 = tp := ⟨tp - 1, by omega⟩
  unfold get_auction_items consistent_responses
  rw [List.range_eq_range', fetch_loop_consistent (n + 1) pages n 0 5 [] (by omega)]
  simp [List.length_flatten, List.map_map, Function.comp_def]

/-- Per-page entry lists for the concrete C5 instance. -/
def c5_pages : Nat → List AuctionItem
  | 0 => [crimson_true]
  | _ => [molten_item, contrived_item]

/-- Concrete instance of `c5_complete_fetch_count`: two pages with one and
two entries. -/
theorem c5_witness :
    (get_auction_items (consistent_responses 2 c5_pages)).length
      = ((List.range 2).map (fun i => (c5_pages i).length)).sum :=
  c5_complete_fetch_count 2 c5_pages (by decide)

/-- Claim C6: the armor predicate holds iff the name case-insensitively
contains one of the 5 armor-line names AND one of the 4 piece types; a
line-only name ("Crimson Sword") and a piece-only name ("Diamond Helmet")
both fail, while case variations match. -/
theorem c6_armor_predicate :
    (∀ item_name : String,
      (matches_armor_name item_name && matches_armor_piece item_name) = true ↔
        ((∃ n ∈ valid_armor_names,
            has_substr (lower_chars n.data) (lower_chars item_name.data) = true)
         ∧ (∃ p ∈ valid_armor_pieces,
            has_substr (lower_chars p.data) (lower_chars item_name.data) = true)))
    ∧ (matches_armor_name "Crimson Sword" && matches_armor_piece "Crimson Sword") = false
    ∧ (matches_armor_name "Diamond Helmet" && matches_armor_piece "Diamond Helmet") = false
    ∧ (matches_armor_name "cRiMsOn HeLmEt" && matches_armor_piece "cRiMsOn HeLmEt") = true := by
  refine ⟨?_, by decide, by decide, by decide⟩
  intro item_name
  simp [matches_armor_name, matches_armor_piece, List.any_eq_true]

/-- Claim C7: "Crimson Helmet" with `bin_status = true` lands in the armor
branch and in the filter result; the same name with `bin_status = false` is
excluded from the filter result.  (The cache is fresh at `now = 100`, so no
refresh intervenes.) -/
theorem c7_bin_status_gate :
    armors_of [crimson_true] = [crimson_true]
    ∧ (filter_items ⟨100, [crimson_true]⟩ [] 100).2 = [crimson_true]
    ∧ (filter_items ⟨100, [crimson_false]⟩ [] 100).2 = [] := by decide

/-- Claim C8: the filter result is armor matches, then equipment matches,
then shard matches, concatenated with no deduplication: the contrived
"Crimson Attribute Shard Helmet" appears once in the armor branch and once
in the shard branch; "Molten Cloak" matches only the equipment branch while
satisfying neither armor predicate. -/
theorem c8_concatenation_no_dedup :
    (∀ items : List AuctionItem,
      filter_pure items = armors_of items ++ equipments_of items ++ shards_of items)
    ∧ filter_pure [contrived_item] = [contrived_item, contrived_item]
    ∧ armors_of [contrived_item] = [contrived_item]
    ∧ equipments_of [contrived_item] = []
    ∧ shards_of [contrived_item] = [contrived_item]
    ∧ filter_pure [molten_item] = [molten_item]
    ∧ equipments_of [molten_item] = [molten_item]
    ∧ (matches_armor_name "Molten Cloak" || matches_armor_piece "Molten Cloak") = false :=
  ⟨fun _ => rfl, by decide⟩

/-- Claim C9: the staleness predicate is true right after construction (any
clock reading beyond the 5-minute threshold past `datetime_min`), false
right after a refresh completes, and true again exactly when more than 300
seconds have elapsed since the refresh timestamp. -/
theorem c9_staleness (s : CacheState) (responses : List Response) (now later : Int) :
    (datetime_min + 300 < now → is_stale initial_cache now = true)
    ∧ is_stale (refresh_data s responses now) now = false
    ∧ (is_stale (refresh_data s responses now) later = true ↔ now + 300 < later) := by
  refine ⟨fun h => ?_, ?_, ?_⟩
  · simp only [datetime_min] at h
    simp only [is_stale, initial_cache, datetime_min, decide_eq_true_eq]
    omega
  · simp only [is_stale, refresh_data, decide_eq_false_iff_not]
    omega
  · simp only [is_stale, refresh_data, decide_eq_true_eq]
    omega

/-- Concrete instance of `c9_staleness` at clock readings 400 and 701. -/
theorem c9_witness :
    is_stale initial_cache 400 = true
    ∧ is_stale (refresh_data initial_cache [] 400) 400 = false
    ∧ (is_stale (refresh_data initial_cache [] 400) 701 = true ↔ (400 : Int) + 300 < 701) :=
  ⟨(c9_staleness initial_cache [] 400 701).1 (by decide),
   (c9_staleness initial_cache [] 400 701).2.1,
   (c9_staleness initial_cache [] 400 701).2.2⟩

/-- Claim C10: every item of the filter result has a present, non-empty
display name and `bin_status = true`, whichever of the three branches
produced it. -/
theorem c10_result_invariant (items : List AuctionItem) (x : AuctionItem)
    (hx : x ∈ filter_pure items) :
    (∃ s, x.item_name = some s ∧ s ≠ "") ∧ x.bin_status = true := by
  unfold filter_pure armors_of equipments_of shards_of at hx
  rcases List.mem_append.mp hx with hx' | hx'
  · rcases List.mem_append.mp hx' with hx'' | hx''
    · exact armor_cond_name_bin x (List.mem_filter.mp hx'').2
    · exact equipment_cond_name_bin x (List.mem_filter.mp hx'').2
  · exact shard_cond_name_bin x (List.mem_filter.mp hx').2

/-- Concrete instance of `c10_result_invariant` on a one-item cache. -/
theorem c10_witness :
    (∃ s, crimson_true.item_name = some s ∧ s ≠ "") ∧ crimson_true.bin_status = true :=
  c10_result_invariant [crimson_true] crimson_true (by decide)
